import Mathlib

/-!
# cmCommand: the base class of all CMake commands

A shallow embedding of `Source/cmCommand.h`.

* A `cmMakefile*` is an address or the null pointer: `Option Nat`.
* An object is the record of its data members. `cmCommand` is abstract
  (`InitialPass`, `Clone` and `GetName` are pure virtual), so every live object
  belongs to a concrete subclass; the members such a subclass adds are the field
  `Members`, of an arbitrary type `D`.
* The type `cmCommandArgumentsHelper` is declared in a header that is not part
  of the sources at hand; it is the type parameter `H`.
* A member function is a state-passing function: it takes the object and gives
  back its result together with the object after the call.
* Virtual dispatch goes through `cmCommandClass`, the table of what a concrete
  subclass supplies: the pure virtual functions always, an override of the other
  virtual functions optionally (`none` = not overridden, the body written in
  `cmCommand` runs).
-/

namespace CMake

/-- A `cmMakefile*`: `none` is the null pointer, `some a` points at address `a`. -/
abbrev cmMakefilePtr : Type := Option Nat

/-- The null pointer constant `CM_NULLPTR`. -/
def CM_NULLPTR : cmMakefilePtr := none

/-- The data members of a `cmCommand` object (`cmCommand.h`, lines 110-116):
`Makefile` and `Helper` (protected), `Error` (private), followed by whatever
the concrete subclass declares. -/
structure cmCommand (H D : Type) where
  Makefile : cmMakefilePtr
  Helper : H
  Error : String
  Members : D
  deriving DecidableEq, Repr

/-- Modelled from the spec: the quoting mode of an argument token (section 3,
"unquoted / quoted-preserve-whitespace / bracket-verbatim"); the declaration of
`cmListFileArgument` in `cmListFileCache.h` is not among the sources. -/
inductive Delimiter where
  | Unquoted
  | Quoted
  | Bracket
  deriving DecidableEq, Repr

/-- Modelled from the spec: an argument token is "raw text plus a quoting mode"
(section 3); the declaration of `cmListFileArgument` in `cmListFileCache.h` is
not among the sources. -/
structure cmListFileArgument where
  Value : String
  Delim : Delimiter
  deriving DecidableEq, Repr

/-- Modelled from the spec: the execution status is
`{ error: optional string, return_requested, break_requested, continue_requested }`
(section 3); the declaration of `cmExecutionStatus` is not among the sources. -/
structure cmExecutionStatus where
  error : Option String
  return_requested : Bool
  break_requested : Bool
  continue_requested : Bool
  deriving DecidableEq, Repr

/-- Modelled from the spec: the failure of argument expansion, `ExpansionError`
(sections 4.2 and 7); no declaration of it is among the sources. -/
structure ExpansionError where
  message : String
  deriving DecidableEq, Repr

/-- The outcome of `InitialPass`: the returned `bool`, the status it was handed
by reference, and the object, both as they are after the call. -/
abbrev PassResult (H D : Type) : Type := Bool × cmExecutionStatus × cmCommand H D

/-- What a concrete subclass of `cmCommand` supplies. `InitialPass`, `Clone` and
`GetName` are pure virtual (`= 0`) and always present. The remaining virtual
functions carry a body in `cmCommand`; a subclass may replace it (`some f`) or
inherit it (`none`). -/
structure cmCommandClass (H D : Type) where
  InitialPass : cmCommand H D → List String → cmExecutionStatus → PassResult H D
  Clone : cmCommand H D → cmCommand H D
  GetName : cmCommand H D → String
  InvokeInitialPass :
    Option (cmCommand H D → List cmListFileArgument → cmExecutionStatus →
      Except ExpansionError (PassResult H D))
  FinalPass : Option (cmCommand H D → cmCommand H D)
  HasFinalPass : Option (cmCommand H D → Bool × cmCommand H D)
  IsScriptable : Option (cmCommand H D → Bool × cmCommand H D)
  ShouldAppearInDocumentation : Option (cmCommand H D → Bool × cmCommand H D)

/-- The constructor `cmCommand() : Makefile(CM_NULLPTR) {}` (lines 30-33).
`Helper` and `Error` are default-constructed: `h0` stands for the
default-constructed helper, and a default `std::string` is empty. `d0` is the
state the subclass constructor gives its own members. (Named `ctor`: the name
`cmCommand.cmCommand` would hide the type inside its own namespace.) -/
def cmCommand.ctor {H D : Type} (h0 : H) (d0 : D) : cmCommand H D :=
  { Makefile := CM_NULLPTR, Helper := h0, Error := "", Members := d0 }

/-- Line 43: `void SetMakefile(cmMakefile* m) { this->Makefile = m; }`. -/
def cmCommand.SetMakefile {H D : Type} (c : cmCommand H D) (m : cmMakefilePtr) :
    cmCommand H D :=
  { c with Makefile := m }

/-- Line 44: `cmMakefile* GetMakefile() { return this->Makefile; }`. -/
def cmCommand.GetMakefile {H D : Type} (c : cmCommand H D) :
    cmMakefilePtr × cmCommand H D :=
  (c.Makefile, c)

/-- Line 67: `virtual void FinalPass() {}`. -/
def cmCommand.FinalPass {H D : Type} (c : cmCommand H D) : cmCommand H D :=
  c

/-- Line 72: `virtual bool HasFinalPass() const { return false; }`. -/
def cmCommand.HasFinalPass {H D : Type} (c : cmCommand H D) : Bool × cmCommand H D :=
  (false, c)

/-- Line 82: `virtual bool IsScriptable() const { return false; }`. -/
def cmCommand.IsScriptable {H D : Type} (c : cmCommand H D) : Bool × cmCommand H D :=
  (false, c)

/-- Line 90: `virtual bool ShouldAppearInDocumentation() const { return true; }`. -/
def cmCommand.ShouldAppearInDocumentation {H D : Type} (c : cmCommand H D) :
    Bool × cmCommand H D :=
  (true, c)

/-- Modelled from the spec: the body of `cmCommand::SetError` is not among the
sources (only its declaration, line 105, documented "Set the error message").
Section 4.5: "a command records a message via a `set_error` contract". The
message is recorded in the member `Error`. -/
def cmCommand.SetError {H D : Type} (c : cmCommand H D) (e : String) : cmCommand H D :=
  { c with Error := e }

/-- Modelled from the spec: the body of `cmCommand::GetError` is not among the
sources (only its declaration, line 100, documented "Return the last error
string"). Section 4.5: "the execution context reads it". The recorded message
is read back from the member `Error`. -/
def cmCommand.GetError {H D : Type} (c : cmCommand H D) : String × cmCommand H D :=
  (c.Error, c)

/-- Modelled from the spec: the body of `cmCommand::InvokeInitialPass` is not
among the sources (only its declaration, lines 51-52, documented as expanding
the arguments of the command and then invoking the InitialPass). Section 4.6: "expand
arguments (4.2), dispatch"; section 4.2: expansion may "fail with
`ExpansionError`". `ExpandArguments` is the expansion of the raw arguments in
the current scope, which belongs to the makefile and is not among the sources;
`InitialPass` is the pure virtual function of the concrete subclass. -/
def cmCommand.InvokeInitialPass {H D : Type}
    (ExpandArguments : List cmListFileArgument → Except ExpansionError (List String))
    (InitialPass : cmCommand H D → List String → cmExecutionStatus → PassResult H D)
    (c : cmCommand H D) (args : List cmListFileArgument) (status : cmExecutionStatus) :
    Except ExpansionError (PassResult H D) :=
  match ExpandArguments args with
  | .error err => .error err
  | .ok expandedArguments => .ok (InitialPass c expandedArguments status)

/-! ### Virtual calls -/

/-- The virtual call `c->FinalPass()` on an object of class `cls`. -/
def callFinalPass {H D : Type} (cls : cmCommandClass H D) (c : cmCommand H D) :
    cmCommand H D :=
  match cls.FinalPass with
  | some f => f c
  | none => cmCommand.FinalPass c

/-- The virtual call `c->HasFinalPass()` on an object of class `cls`. -/
def callHasFinalPass {H D : Type} (cls : cmCommandClass H D) (c : cmCommand H D) :
    Bool × cmCommand H D :=
  match cls.HasFinalPass with
  | some f => f c
  | none => cmCommand.HasFinalPass c

/-- The virtual call `c->IsScriptable()` on an object of class `cls`. -/
def callIsScriptable {H D : Type} (cls : cmCommandClass H D) (c : cmCommand H D) :
    Bool × cmCommand H D :=
  match cls.IsScriptable with
  | some f => f c
  | none => cmCommand.IsScriptable c

/-- The virtual call `c->ShouldAppearInDocumentation()` on an object of class
`cls`. -/
def callShouldAppearInDocumentation {H D : Type} (cls : cmCommandClass H D)
    (c : cmCommand H D) : Bool × cmCommand H D :=
  match cls.ShouldAppearInDocumentation with
  | some f => f c
  | none => cmCommand.ShouldAppearInDocumentation c

/-- The virtual call `c->InvokeInitialPass(args, status)` on an object of class
`cls`, with `ExpandArguments` the expansion in the current scope. -/
def callInvokeInitialPass {H D : Type}
    (ExpandArguments : List cmListFileArgument → Except ExpansionError (List String))
    (cls : cmCommandClass H D) (c : cmCommand H D) (args : List cmListFileArgument)
    (status : cmExecutionStatus) : Except ExpansionError (PassResult H D) :=
  match cls.InvokeInitialPass with
  | some f => f c args status
  | none => cmCommand.InvokeInitialPass ExpandArguments cls.InitialPass c args status

/-! ### Concrete objects used to instantiate the theorems -/

/-- A status with no error and no control-flow request. -/
def cleanStatus : cmExecutionStatus :=
  { error := none, return_requested := false, break_requested := false,
    continue_requested := false }

/-- A command class that overrides nothing. Its `InitialPass` counts its
successful runs in the subclass member; it fails, recording an error in the
status, unless it is given exactly one argument. -/
def plainClass : cmCommandClass Unit Nat :=
  { InitialPass := fun c xs st =>
      if xs.length = 1 then (true, st, { c with Members := c.Members + 1 })
      else (false, { st with error := some "wants one argument" }, c)
    Clone := fun c => cmCommand.ctor c.Helper 0
    GetName := fun _ => "plain"
    InvokeInitialPass := none
    FinalPass := none
    HasFinalPass := none
    IsScriptable := none
    ShouldAppearInDocumentation := none }

/-- A command class that overrides every virtual function that has a body. -/
def overridingClass : cmCommandClass Unit Nat :=
  { plainClass with
    InvokeInitialPass := some (fun c _ st => .ok (true, st, c))
    FinalPass := some (fun c => { c with Error := "done", Makefile := CM_NULLPTR })
    HasFinalPass := some (fun c => (true, c))
    IsScriptable := some (fun c => (true, c))
    ShouldAppearInDocumentation := some (fun c => (false, c)) }

/-- An object in mid-life: it has a makefile, an error and subclass state. -/
def busyCommand : cmCommand Unit Nat :=
  { Makefile := some 4096, Helper := (), Error := "called with incorrect number of arguments",
    Members := 7 }

/-- An expansion in a scope with no variable set: an unquoted token that is
empty yields no word, every other token yields its text as one word, and a token
whose text is an unterminated reference makes the expansion fail. -/
def sampleExpand (args : List cmListFileArgument) : Except ExpansionError (List String) :=
  if args.any (fun a => a.Value == "$\x7b") then
    .error { message := "unterminated reference" }
  else
    .ok (args.flatMap (fun a =>
      if a.Delim = Delimiter.Unquoted ∧ a.Value = "" then [] else [a.Value]))

/-! ### The model distinguishes what the theorems below tell apart -/

theorem overridingClass_HasFinalPass :
    callHasFinalPass overridingClass busyCommand = (true, busyCommand) := rfl

theorem overridingClass_ShouldAppearInDocumentation :
    callShouldAppearInDocumentation overridingClass busyCommand = (false, busyCommand) := rfl

theorem overridingClass_FinalPass :
    (callFinalPass overridingClass busyCommand).Makefile = CM_NULLPTR ∧
      (callFinalPass overridingClass busyCommand).Error = "done" := ⟨rfl, rfl⟩

theorem sampleExpand_ok :
    sampleExpand [⟨"a", .Unquoted⟩, ⟨"", .Unquoted⟩, ⟨"", .Quoted⟩] = .ok ["a", ""] := rfl

theorem sampleExpand_error :
    sampleExpand [⟨"a", .Unquoted⟩, ⟨"$\x7b", .Unquoted⟩] =
      .error ⟨"unterminated reference"⟩ := rfl

/-- With a failing expansion `InitialPass` is not run: the error is handed on. -/
theorem InvokeInitialPass_error {H D : Type}
    (ExpandArguments : List cmListFileArgument → Except ExpansionError (List String))
    (InitialPass : cmCommand H D → List String → cmExecutionStatus → PassResult H D)
    (c : cmCommand H D) (args : List cmListFileArgument) (status : cmExecutionStatus)
    (err : ExpansionError) (h : ExpandArguments args = .error err) :
    cmCommand.InvokeInitialPass ExpandArguments InitialPass c args status = .error err := by
  simp [cmCommand.InvokeInitialPass, h]

/-- With a successful expansion `InitialPass` runs on the expanded arguments. -/
theorem InvokeInitialPass_ok {H D : Type}
    (ExpandArguments : List cmListFileArgument → Except ExpansionError (List String))
    (InitialPass : cmCommand H D → List String → cmExecutionStatus → PassResult H D)
    (c : cmCommand H D) (args : List cmListFileArgument) (status : cmExecutionStatus)
    (xs : List String) (h : ExpandArguments args = .ok xs) :
    cmCommand.InvokeInitialPass ExpandArguments InitialPass c args status =
      .ok (InitialPass c xs status) := by
  simp [cmCommand.InvokeInitialPass, h]

theorem plainClass_InvokeInitialPass_one :
    callInvokeInitialPass sampleExpand plainClass busyCommand
        [⟨"a", .Quoted⟩, ⟨"", .Unquoted⟩] cleanStatus =
      .ok (true, cleanStatus, { busyCommand with Members := 8 }) := rfl

theorem plainClass_InvokeInitialPass_two :
    callInvokeInitialPass sampleExpand plainClass busyCommand
        [⟨"a", .Quoted⟩, ⟨"b", .Unquoted⟩] cleanStatus =
      .ok (false, { cleanStatus with error := some "wants one argument" }, busyCommand) := rfl

/-! ### Theorems -/

/-- C1: on every command whose class does not override it, the virtual call
HasFinalPass returns false, whatever the state of the object (any makefile, any
error string, any helper, any subclass members). -/
theorem HasFinalPass_default {H D : Type} (cls : cmCommandClass H D) (c : cmCommand H D)
    (h : cls.HasFinalPass = none) : (callHasFinalPass cls c).1 = false := by
  simp [callHasFinalPass, h, cmCommand.HasFinalPass]

theorem HasFinalPass_default_witness :
    plainClass.HasFinalPass = none ∧ (callHasFinalPass plainClass busyCommand).1 = false :=
  ⟨rfl, HasFinalPass_default plainClass busyCommand rfl⟩

/-- C2: on every command whose class does not override it, the virtual call
IsScriptable returns false, whatever the state of the object. -/
theorem IsScriptable_default {H D : Type} (cls : cmCommandClass H D) (c : cmCommand H D)
    (h : cls.IsScriptable = none) : (callIsScriptable cls c).1 = false := by
  simp [callIsScriptable, h, cmCommand.IsScriptable]

theorem IsScriptable_default_witness :
    plainClass.IsScriptable = none ∧ (callIsScriptable plainClass busyCommand).1 = false :=
  ⟨rfl, IsScriptable_default plainClass busyCommand rfl⟩

/-- C3: on every command whose class does not override it, the virtual call
ShouldAppearInDocumentation returns true, whatever the state of the object, and
the object after the call has the makefile and the error string it had before
(indeed it is the same object state). -/
theorem ShouldAppearInDocumentation_default {H D : Type} (cls : cmCommandClass H D)
    (c : cmCommand H D) (h : cls.ShouldAppearInDocumentation = none) :
    (callShouldAppearInDocumentation cls c).1 = true ∧
      (callShouldAppearInDocumentation cls c).2.Makefile = c.Makefile ∧
      (callShouldAppearInDocumentation cls c).2.Error = c.Error ∧
      (callShouldAppearInDocumentation cls c).2 = c := by
  simp [callShouldAppearInDocumentation, h, cmCommand.ShouldAppearInDocumentation]

theorem ShouldAppearInDocumentation_default_witness :
    plainClass.ShouldAppearInDocumentation = none ∧
      (callShouldAppearInDocumentation plainClass busyCommand).1 = true ∧
      (callShouldAppearInDocumentation plainClass busyCommand).2.Makefile = some 4096 ∧
      (callShouldAppearInDocumentation plainClass busyCommand).2.Error =
        "called with incorrect number of arguments" ∧
      (callShouldAppearInDocumentation plainClass busyCommand).2 = busyCommand :=
  ⟨rfl, ShouldAppearInDocumentation_default plainClass busyCommand rfl⟩

/-- C4: GetMakefile on a freshly default-constructed command returns the null
makefile; hence it differs from the makefile of any earlier instance that was
given one. -/
theorem GetMakefile_ctor {H D : Type} (h0 : H) (d0 : D) (earlier : cmCommand H D) (a : Nat) :
    (cmCommand.GetMakefile (cmCommand.ctor h0 d0)).1 = CM_NULLPTR ∧
      (cmCommand.GetMakefile (cmCommand.ctor h0 d0)).1 ≠
        (cmCommand.GetMakefile (cmCommand.SetMakefile earlier (some a))).1 := by
  simp [cmCommand.GetMakefile, cmCommand.ctor, cmCommand.SetMakefile, CM_NULLPTR]

/-- C5: for every command state and every makefile pointer m, null included,
GetMakefile after SetMakefile(m) returns exactly m. -/
theorem GetMakefile_SetMakefile {H D : Type} (c : cmCommand H D) (m : cmMakefilePtr) :
    (cmCommand.GetMakefile (cmCommand.SetMakefile c m)).1 = m := by
  simp [cmCommand.GetMakefile, cmCommand.SetMakefile]

/-- C6: for every command state and every message e, GetError after SetError(e)
returns e; after two SetError calls it returns the message of the later one. -/
theorem GetError_SetError {H D : Type} (c : cmCommand H D) (e0 e : String) :
    (cmCommand.GetError (cmCommand.SetError c e)).1 = e ∧
      (cmCommand.GetError (cmCommand.SetError (cmCommand.SetError c e0) e)).1 = e := by
  simp [cmCommand.GetError, cmCommand.SetError]

/-- C8: on every command whose class does not override it, the virtual call
FinalPass changes nothing: the makefile and the error string of the object, and
the whole object state, are what they were before. -/
theorem FinalPass_default {H D : Type} (cls : cmCommandClass H D) (c : cmCommand H D)
    (h : cls.FinalPass = none) :
    (callFinalPass cls c).Makefile = c.Makefile ∧ (callFinalPass cls c).Error = c.Error ∧
      callFinalPass cls c = c := by
  simp [callFinalPass, h, cmCommand.FinalPass]

theorem FinalPass_default_witness :
    plainClass.FinalPass = none ∧
      (callFinalPass plainClass busyCommand).Makefile = some 4096 ∧
      (callFinalPass plainClass busyCommand).Error =
        "called with incorrect number of arguments" ∧
      callFinalPass plainClass busyCommand = busyCommand :=
  ⟨rfl, FinalPass_default plainClass busyCommand rfl⟩

/-- C9: SetMakefile changes only the makefile: the error string, the argument
helper and the subclass members after SetMakefile(m) are those before, and the
answers of the base HasFinalPass, IsScriptable and ShouldAppearInDocumentation
are the same before and after. -/
theorem SetMakefile_frame {H D : Type} (c : cmCommand H D) (m : cmMakefilePtr) :
    (cmCommand.SetMakefile c m).Error = c.Error ∧
      (cmCommand.SetMakefile c m).Helper = c.Helper ∧
      (cmCommand.SetMakefile c m).Members = c.Members ∧
      (cmCommand.HasFinalPass (cmCommand.SetMakefile c m)).1 = (cmCommand.HasFinalPass c).1 ∧
      (cmCommand.IsScriptable (cmCommand.SetMakefile c m)).1 = (cmCommand.IsScriptable c).1 ∧
      (cmCommand.ShouldAppearInDocumentation (cmCommand.SetMakefile c m)).1 =
        (cmCommand.ShouldAppearInDocumentation c).1 := by
  simp [cmCommand.SetMakefile, cmCommand.HasFinalPass, cmCommand.IsScriptable,
    cmCommand.ShouldAppearInDocumentation]

end CMake
